import Mathlib

/-!
Verification of the aionanit camera client library (packages/aionanit).

Shallow embedding of the pure/state-passing cores of:
* `camera.py` — `_parse_sensor_data` (sensor merge), `_on_connection_change`,
  `async_stop`;
* `ws/pending.py` — `PendingRequests` (next_id / track / resolve / cancel_all);
* `ws/transport.py` — reconnect backoff sequence and the connection-state
  emissions of the transport;
* `rest.py` — `_async_auth_request` (login / MFA error precedence);
* `auth.py` — `TokenManager.async_get_access_token`;
* `client.py` — `NanitClient.camera` controller cache.

Python floats are modelled as exact rationals (ℚ): the claims under
verification concern which wire field is selected and the /1000 or ×1.618
scaling structure, not IEEE-754 rounding.  Wire integers are Python `int`
(unbounded), modelled as `Int`/`Nat`.  Proto3 scalar fields carry no
presence bit: a field is "absent" exactly when it holds the default
(0 / false), which is what the Python truthiness tests in the source
(`if sd.value_milli:`) check.
-/

namespace Aionanit

/-- Sensor types of the protobuf `SensorData.sensor_type` field
(`models.py` `SensorType`: SOUND=0, MOTION=1, TEMPERATURE=2, HUMIDITY=3,
LIGHT=4, NIGHT=5). -/
inductive SensorType where
  | sound
  | motion
  | temperature
  | humidity
  | light
  | night
deriving DecidableEq, Repr

/-- One entry of a sensor-data payload (proto `SensorData`).  Proto3
defaults: `value = 0`, `value_milli = 0`, `is_alert = false`. -/
structure SensorData where
  sensor_type : SensorType
  value : Int := 0
  value_milli : Int := 0
  is_alert : Bool := false
deriving DecidableEq, Repr

/-- Aggregated sensor snapshot (`models.py` `SensorState`). -/
structure SensorState where
  temperature : Option ℚ := Option.none
  humidity : Option ℚ := Option.none
  light : Option Int := Option.none
  sound_alert : Bool := false
  motion_alert : Bool := false
  night : Bool := false
deriving DecidableEq, Repr

/-- Body of the `for sd in sensor_data_list` loop of
`camera._parse_sensor_data`: apply one `SensorData` entry to the running
sensor locals.  `if sd.value_milli:` / `elif sd.value:` are Python
truthiness tests, i.e. ≠ 0. -/
def sensorMergeStep (st : SensorState) (sd : SensorData) : SensorState :=
  match sd.sensor_type with
  | .temperature =>
      if sd.value_milli ≠ 0 then
        { st with temperature := some ((sd.value_milli : ℚ) / 1000) }
      else if sd.value ≠ 0 then
        { st with temperature := some ((sd.value : ℚ)) }
      else st
  | .humidity =>
      if sd.value_milli ≠ 0 then
        { st with humidity := some ((sd.value_milli : ℚ) / 1000) }
      else if sd.value ≠ 0 then
        { st with humidity := some ((sd.value : ℚ)) }
      else st
  | .light => { st with light := some sd.value }
  | .sound => { st with sound_alert := sd.is_alert }
  | .motion => { st with motion_alert := sd.is_alert }
  | .night => { st with night := sd.value ≠ 0 }

/-- `camera._parse_sensor_data(sensor_data_list, current)`: fold the loop
body over the payload, starting from the current state; the function then
rebuilds a `SensorState` from the final locals, which is exactly the fold
result. -/
def parse_sensor_data (sensor_data_list : List SensorData)
    (current : SensorState) : SensorState :=
  sensor_data_list.foldl sensorMergeStep current

/-! ## Error kinds (`exceptions.py`) and auth request (`rest.py`) -/

/-- Error kinds raised by the library (`exceptions.py`), plus the generic
`aiohttp` raise-for-status outcome and a missing-body-key outcome of
`_async_auth_request`. -/
inductive NanitError where
  | authError (msg : String)
  | mfaRequired (mfa_token : String)
  | connError (msg : String)
  | transportError (msg : String)
  | requestTimeout (request_type : String) (request_id : Nat)
  | httpStatus (status : Nat)
  | missingKey
deriving DecidableEq, Repr

/-- The JSON body of a `/login` response, restricted to the keys
`_async_auth_request` reads.  `Option.none` models the key being absent. -/
structure LoginBody where
  mfa_token : Option String := Option.none
  access_token : Option String := Option.none
  refresh_token : Option String := Option.none
deriving DecidableEq, Repr

/-- `NanitRestClient._async_auth_request`, given that the HTTP POST itself
succeeded with `status` and JSON `body` (a network failure raises
`NanitConnectionError` before this logic runs).  The source order is:
(1) `status == 401` → `NanitAuthError`; (2) body parsed, `mfa_token` key
present → `NanitMfaRequiredError(body["mfa_token"])`;
(3) `resp.raise_for_status()` (raises for every status ≥ 400);
(4) return the access/refresh pair from the body. -/
def auth_request (status : Nat) (body : LoginBody) :
    Except NanitError (String × String) :=
  if status = 401 then .error (.authError "Invalid credentials")
  else
    match body.mfa_token with
    | some t => .error (.mfaRequired t)
    | Option.none =>
        if 400 ≤ status then .error (.httpStatus status)
        else
          match body.access_token, body.refresh_token with
          | some a, some r => .ok (a, r)
          | _, _ => .error .missingKey

/-! ## Pending-request table (`ws/pending.py`) -/

/-- Minimal model of the proto `Response` message as far as the pending
table is concerned. -/
structure Response where
  request_id : Nat := 0
  status_code : Nat := 0
deriving DecidableEq, Repr

/-- Observable state of one `asyncio.Future` held by an awaiter. -/
inductive FutureState where
  | pending
  | done (resp : Response)
  | failed (e : NanitError)
  | cancelled
deriving DecidableEq, Repr

/-- `PendingRequests` (`ws/pending.py`): dict `id → future` plus the id
counter.  The dict is modelled as an association list with unique keys. -/
structure PendingRequests where
  table : List (Nat × FutureState) := []
  counter : Nat := 0
deriving DecidableEq, Repr

/-- `PendingRequests.next_id`: `self._counter += 1; return self._counter`. -/
def PendingRequests.next_id (p : PendingRequests) : Nat × PendingRequests :=
  (p.counter + 1, { p with counter := p.counter + 1 })

/-- `PendingRequests.track(request_id)`: raises `ValueError` (modelled as
`Option.none`) when the id is already tracked, otherwise inserts a fresh
pending future. -/
def PendingRequests.track (p : PendingRequests) (request_id : Nat) :
    Option PendingRequests :=
  if (p.table.lookup request_id).isSome then Option.none
  else some { p with table := p.table ++ [(request_id, .pending)] }

/-- `PendingRequests.resolve(request_id, response)`: pops the entry
unconditionally; returns `true` and completes the future with the
response only when an entry existed and was still pending.  The third
component is the post-call state of the popped future, observable by its
awaiter. -/
def PendingRequests.resolve (p : PendingRequests) (request_id : Nat)
    (response : Response) : PendingRequests × Bool × Option FutureState :=
  match p.table.lookup request_id with
  | Option.none => (p, false, Option.none)
  | some f =>
      let p' := { p with table := p.table.filter (fun e => e.1 ≠ request_id) }
      if f = .pending then (p', true, some (.done response))
      else (p', false, some f)

/-- The per-future effect of `cancel_all`: a future that is not done is
completed with the error when one is given and cancelled otherwise; a
future that is already done is left untouched. -/
def completeFuture (error : Option NanitError) (f : FutureState) : FutureState :=
  if f = .pending then
    match error with
    | some e => .failed e
    | Option.none => .cancelled
  else f

/-- `PendingRequests.cancel_all(error)`: clears the table; the second
component is the post-call state of every future that was held in the
table (these futures remain observable by their awaiters). -/
def PendingRequests.cancel_all (p : PendingRequests)
    (error : Option NanitError) : PendingRequests × List (Nat × FutureState) :=
  ({ p with table := [] },
   p.table.map (fun e => (e.1, completeFuture error e.2)))

/-- `PendingRequests.pending_count`: `len(self._pending)`. -/
def PendingRequests.pending_count (p : PendingRequests) : Nat :=
  p.table.length

/-- The ids handed out by `n` consecutive `next_id()` calls starting from
table state `p`. -/
def nextIds : PendingRequests → Nat → List Nat
  | _, 0 => []
  | p, n + 1 => (p.next_id).1 :: nextIds (p.next_id).2 n

/-! ## Connection state (`models.py`, `camera.py`, `ws/transport.py`) -/

/-- `models.ConnectionState`. -/
inductive ConnectionState where
  | connected
  | connecting
  | disconnected
  | reconnecting
deriving DecidableEq, Repr

/-- `models.TransportKind`. -/
inductive TransportKind where
  | lan
  | cloud
  | nothing
deriving DecidableEq, Repr

/-- `models.ConnectionInfo`.  Timestamps are abstract ticks (`Nat`). -/
structure ConnectionInfo where
  state : ConnectionState := .disconnected
  transport : TransportKind := .nothing
  last_seen : Option Nat := Option.none
  last_error : Option String := Option.none
  reconnect_attempts : Nat := 0
deriving DecidableEq, Repr

/-- The controller-visible state touched by `NanitCamera._on_connection_change`:
the aggregated connection info and the pending table. -/
structure CtrlState where
  conn : ConnectionInfo := {}
  pending : PendingRequests := {}
deriving DecidableEq, Repr

/-- `NanitCamera._on_connection_change(state, transport, error)`: rebuilds
`ConnectionInfo` (`last_seen := now` only on connected; `reconnect_attempts`
is `old+1` on reconnecting, `0` on connected, else unchanged), then — only
on `disconnected` — cancel-alls the pending table with
`NanitTransportError("Connection lost")`. -/
def on_connection_change (c : CtrlState) (s : ConnectionState)
    (t : TransportKind) (error : Option String) (now : Nat) : CtrlState :=
  let old := c.conn
  let newConn : ConnectionInfo :=
    { state := s
      transport := t
      last_seen := if s = .connected then some now else old.last_seen
      last_error := error
      reconnect_attempts :=
        if s = .reconnecting then old.reconnect_attempts + 1
        else if s = .connected then 0
        else old.reconnect_attempts }
  let pending' :=
    if s = .disconnected then
      (c.pending.cancel_all (some (.transportError "Connection lost"))).1
    else c.pending
  { conn := newConn, pending := pending' }

/-- Controller-level transitions, as generated by the source: which
connection-change emissions the transport can produce in each situation
(`ws/transport.py`), composed with the camera's handler, plus the
pending-table operations of the send/receive path (`camera.py`).

* `connect_attempt` / `connect_success` / `connect_failure`:
  `_async_connect` fires CONNECTING, then CONNECTED on success or
  DISCONNECTED(err) on handshake failure.
* `send_track`: `_send_request` inserts into the pending table; the send
  path runs while connected.
* `deliver_response`: `_on_ws_message` resolves a response id.
* `recv_loop_exit`: the receive loop exits while not closed
  (server close / error) and spawns `_reconnect_loop`, whose first act is
  to emit RECONNECTING — no DISCONNECTED emission happens in between.
* `reconnect_failure` / `reconnect_success`: each failed reconnect
  attempt re-emits RECONNECTING; a successful one emits CONNECTED.
* `close_transport`: `async_close` emits DISCONNECTED with transport
  `nothing`. -/
inductive CtrlStep : CtrlState → CtrlState → Prop where
  | connect_attempt (c : CtrlState) (t : TransportKind) (now : Nat) :
      CtrlStep c (on_connection_change c .connecting t Option.none now)
  | connect_success (c : CtrlState) (now : Nat)
      (h : c.conn.state = .connecting) :
      CtrlStep c (on_connection_change c .connected c.conn.transport Option.none now)
  | connect_failure (c : CtrlState) (err : String) (now : Nat)
      (h : c.conn.state = .connecting) :
      CtrlStep c (on_connection_change c .disconnected c.conn.transport (some err) now)
  | send_track (c : CtrlState) (id : Nat) (p' : PendingRequests)
      (h : c.conn.state = .connected) (ht : c.pending.track id = some p') :
      CtrlStep c { c with pending := p' }
  | deliver_response (c : CtrlState) (id : Nat) (resp : Response)
      (h : c.conn.state = .connected) :
      CtrlStep c { c with pending := (c.pending.resolve id resp).1 }
  | recv_loop_exit (c : CtrlState) (now : Nat)
      (h : c.conn.state = .connected) :
      CtrlStep c (on_connection_change c .reconnecting c.conn.transport Option.none now)
  | reconnect_failure (c : CtrlState) (now : Nat)
      (h : c.conn.state = .reconnecting) :
      CtrlStep c (on_connection_change c .reconnecting c.conn.transport Option.none now)
  | reconnect_success (c : CtrlState) (now : Nat)
      (h : c.conn.state = .reconnecting) :
      CtrlStep c (on_connection_change c .connected c.conn.transport Option.none now)
  | close_transport (c : CtrlState) (now : Nat) :
      CtrlStep c (on_connection_change c .disconnected .nothing Option.none now)

/-- The controller's initial state: fresh `ConnectionInfo` and an empty
pending table (`NanitCamera.__init__`). -/
def initCtrl : CtrlState := {}

/-- States reachable by controller transitions from the initial state. -/
def CtrlReachable (c : CtrlState) : Prop :=
  Relation.ReflTransGen CtrlStep initCtrl c

/-! ## Token manager (`auth.py`) -/

/-- The token triple held by `TokenManager`: access / refresh tokens and
the monotonic expiry instant. -/
structure TokenState where
  access_token : String
  refresh_token : String
  expires_at : ℚ
deriving DecidableEq, Repr

/-- The REST client's refresh result (`async_refresh_token` body). -/
structure TokenPair where
  access_token : String
  refresh_token : String
deriving DecidableEq, Repr

/-- `TokenManager.async_get_access_token(min_ttl)`, under the lock, at
monotonic instant `now`, with `rest` the pair the REST refresh endpoint
would return: when `now + min_ttl >= expires_at` it runs `_async_refresh`
(replacing the triple and setting `expires_at := now + 3600`), then
returns the current access token.  The third component records whether a
refresh was performed. -/
def get_access_token (st : TokenState) (now min_ttl : ℚ)
    (rest : TokenPair) : String × TokenState × Bool :=
  if st.expires_at ≤ now + min_ttl then
    let st' : TokenState :=
      { access_token := rest.access_token
        refresh_token := rest.refresh_token
        expires_at := now + 3600 }
    (st'.access_token, st', true)
  else (st.access_token, st, false)

/-! ## Reconnect backoff (`ws/transport.py` `_reconnect_loop`) -/

/-- The backoff variable of `_reconnect_loop` before the k-th wait
(k-indexed over consecutive connect failures): `backoff = 1.85` initially,
and after each failure `backoff = min(backoff * 1.618, 60.0)`. -/
def backoff : Nat → ℚ
  | 0 => 1.85
  | k + 1 => min (backoff k * 1.618) 60

/-- The k-th sleep duration of `_reconnect_loop`:
`wait_time = backoff + jitter`, where `jitter = random.random()` before
the loop and is zeroed after the first wait. -/
def reconnectWait (jitter : ℚ) (k : Nat) : ℚ :=
  backoff k + (if k = 0 then jitter else 0)

/-! ## Camera controller shutdown (`camera.py` `async_stop`,
`ws/transport.py` `async_close`) -/

/-- `models.CameraEventKind`. -/
inductive CameraEventKind where
  | sensor_update
  | settings_update
  | control_update
  | status_update
  | connection_change
deriving DecidableEq, Repr

/-- The transport-local state touched by `WsTransport.async_close`. -/
structure TranspState where
  closed : Bool := false
  ws_open : Bool := false
  kind : TransportKind := .nothing
deriving DecidableEq, Repr

/-- The controller state touched by `NanitCamera.async_stop`:
the `stopped` flag, whether the local-probe task is alive, the pending
table, the aggregated connection info, and the transport. -/
structure CameraCtrl where
  stopped : Bool := false
  probe_active : Bool := false
  pending : PendingRequests := {}
  conn : ConnectionInfo := {}
  transp : TranspState := {}
deriving DecidableEq, Repr

/-- `NanitCamera.async_stop`: sets `stopped`, cancels the local-probe
task, cancel-alls the pending table (no error → futures cancelled), then
awaits `transport.async_close()`; `async_close` sets `closed`, closes the
WebSocket, resets the transport kind to `nothing` and fires
`on_connection_change(DISCONNECTED, nothing, None)`, which the camera
handler turns into a state update, a (now vacuous) cancel-all, and a
`connection_change` notification to the subscribers.  The second
component lists the events fired at subscribers during the call. -/
def async_stop (c : CameraCtrl) (now : Nat) :
    CameraCtrl × List CameraEventKind :=
  let c1 : CameraCtrl :=
    { c with
      stopped := true
      probe_active := false
      pending := (c.pending.cancel_all Option.none).1 }
  let c2 : CameraCtrl :=
    { c1 with transp := { closed := true, ws_open := false, kind := .nothing } }
  let cs := on_connection_change ⟨c2.conn, c2.pending⟩
      .disconnected .nothing Option.none now
  ({ c2 with conn := cs.conn, pending := cs.pending },
   [CameraEventKind.connection_change])

/-! ## Top-level client camera cache (`client.py` `NanitClient.camera`) -/

/-- A camera controller as far as the cache is concerned: the constructor
arguments it was built from (`NanitCamera.__init__` stores them verbatim). -/
structure NanitCamera where
  uid : String
  baby_uid : String
  prefer_local : Bool
  local_ip : Option String
deriving DecidableEq, Repr

/-- The `NanitClient` state read by `camera`: whether a token manager
exists, and the `camera_uid → controller` cache dict. -/
structure NanitClient where
  authenticated : Bool := false
  cameras : List (String × NanitCamera) := []
deriving DecidableEq, Repr

/-- `NanitClient.camera(uid, baby_uid, prefer_local, local_ip)`: raises
`NanitAuthError` when no token manager exists; returns the cached
controller unchanged when `uid` is already in the cache (the other
arguments are not consulted); otherwise constructs a controller from the
given arguments and caches it under `uid`. -/
def NanitClient.camera (cl : NanitClient) (uid baby_uid : String)
    (prefer_local : Bool) (local_ip : Option String) :
    Except NanitError (NanitCamera × NanitClient) :=
  if cl.authenticated = false then
    .error (.authError "Not authenticated")
  else
    match cl.cameras.lookup uid with
    | some cam => .ok (cam, cl)
    | Option.none =>
        let cam : NanitCamera :=
          { uid := uid, baby_uid := baby_uid
            prefer_local := prefer_local, local_ip := local_ip }
        .ok (cam, { cl with cameras := (uid, cam) :: cl.cameras })

/-! ## Theorems -/

/-- Frame property of one merge step: a `SensorData` entry only writes the
sensor field named by its `sensor_type`. -/
theorem sensorMergeStep_frame (st : SensorState) (sd : SensorData) :
    (sd.sensor_type ≠ .temperature →
      (sensorMergeStep st sd).temperature = st.temperature) ∧
    (sd.sensor_type ≠ .humidity →
      (sensorMergeStep st sd).humidity = st.humidity) ∧
    (sd.sensor_type ≠ .light →
      (sensorMergeStep st sd).light = st.light) ∧
    (sd.sensor_type ≠ .sound →
      (sensorMergeStep st sd).sound_alert = st.sound_alert) ∧
    (sd.sensor_type ≠ .motion →
      (sensorMergeStep st sd).motion_alert = st.motion_alert) ∧
    (sd.sensor_type ≠ .night →
      (sensorMergeStep st sd).night = st.night) := by
  obtain ⟨ty, v, vm, ia⟩ := sd
  cases ty <;>
    refine ⟨?_, ?_, ?_, ?_, ?_, ?_⟩ <;> intro h <;>
    first
      | exact absurd rfl h
      | rfl
      | (unfold sensorMergeStep
         dsimp only
         split <;> first | rfl | (split <;> rfl))

/-- C1: for every sensor-data payload (PUT_SENSOR_DATA push or
GET_SENSOR_DATA response), the merged `SensorState` produced by
`_parse_sensor_data` equals the prior state on every sensor field whose
sensor type is not mentioned in the payload. -/
theorem parse_sensor_data_preserves_unmentioned (lst : List SensorData)
    (cur : SensorState) :
    (SensorType.temperature ∉ lst.map SensorData.sensor_type →
      (parse_sensor_data lst cur).temperature = cur.temperature) ∧
    (SensorType.humidity ∉ lst.map SensorData.sensor_type →
      (parse_sensor_data lst cur).humidity = cur.humidity) ∧
    (SensorType.light ∉ lst.map SensorData.sensor_type →
      (parse_sensor_data lst cur).light = cur.light) ∧
    (SensorType.sound ∉ lst.map SensorData.sensor_type →
      (parse_sensor_data lst cur).sound_alert = cur.sound_alert) ∧
    (SensorType.motion ∉ lst.map SensorData.sensor_type →
      (parse_sensor_data lst cur).motion_alert = cur.motion_alert) ∧
    (SensorType.night ∉ lst.map SensorData.sensor_type →
      (parse_sensor_data lst cur).night = cur.night) := by
  induction lst generalizing cur with
  | nil =>
      exact ⟨fun _ => rfl, fun _ => rfl, fun _ => rfl, fun _ => rfl,
        fun _ => rfl, fun _ => rfl⟩
  | cons hd tl ih =>
      refine ⟨?_, ?_, ?_, ?_, ?_, ?_⟩ <;> intro h <;>
        simp only [List.map_cons, List.mem_cons, not_or] at h
      · exact ((ih (sensorMergeStep cur hd)).1 h.2).trans
          ((sensorMergeStep_frame cur hd).1 (Ne.symm h.1))
      · exact ((ih (sensorMergeStep cur hd)).2.1 h.2).trans
          ((sensorMergeStep_frame cur hd).2.1 (Ne.symm h.1))
      · exact ((ih (sensorMergeStep cur hd)).2.2.1 h.2).trans
          ((sensorMergeStep_frame cur hd).2.2.1 (Ne.symm h.1))
      · exact ((ih (sensorMergeStep cur hd)).2.2.2.1 h.2).trans
          ((sensorMergeStep_frame cur hd).2.2.2.1 (Ne.symm h.1))
      · exact ((ih (sensorMergeStep cur hd)).2.2.2.2.1 h.2).trans
          ((sensorMergeStep_frame cur hd).2.2.2.2.1 (Ne.symm h.1))
      · exact ((ih (sensorMergeStep cur hd)).2.2.2.2.2 h.2).trans
          ((sensorMergeStep_frame cur hd).2.2.2.2.2 (Ne.symm h.1))

/-- Witness for C1: a push mentioning only temperature leaves humidity,
light, the alert flags and night at their prior values. -/
theorem parse_sensor_data_preserves_unmentioned_witness :
    (parse_sensor_data [{ sensor_type := .temperature, value_milli := 23500 }]
        { humidity := some 55, sound_alert := true }).humidity =
      (SensorState.mk Option.none (some 55) Option.none true false false).humidity :=
  (parse_sensor_data_preserves_unmentioned
    [{ sensor_type := .temperature, value_milli := 23500 }]
    { humidity := some 55, sound_alert := true }).2.1 (by decide)

/-- C2: for a temperature or humidity entry of a sensor-data payload
(shown here for the entry processed last, whose write is the one that
survives the merge), `_parse_sensor_data` stores `value_milli / 1000`
whenever the milli field is present (proto3: nonzero), and falls back to
the integer `value` field only when the milli field is absent. -/
theorem parse_sensor_data_milli_preference (lst : List SensorData)
    (cur : SensorState) (sd : SensorData) :
    (sd.sensor_type = .temperature →
      (sd.value_milli ≠ 0 →
        (parse_sensor_data (lst ++ [sd]) cur).temperature =
          some ((sd.value_milli : ℚ) / 1000)) ∧
      (sd.value_milli = 0 → sd.value ≠ 0 →
        (parse_sensor_data (lst ++ [sd]) cur).temperature =
          some ((sd.value : ℚ)))) ∧
    (sd.sensor_type = .humidity →
      (sd.value_milli ≠ 0 →
        (parse_sensor_data (lst ++ [sd]) cur).humidity =
          some ((sd.value_milli : ℚ) / 1000)) ∧
      (sd.value_milli = 0 → sd.value ≠ 0 →
        (parse_sensor_data (lst ++ [sd]) cur).humidity =
          some ((sd.value : ℚ)))) := by
  have hsplit : parse_sensor_data (lst ++ [sd]) cur =
      sensorMergeStep (parse_sensor_data lst cur) sd := by
    simp [parse_sensor_data, List.foldl_append]
  rw [hsplit]
  obtain ⟨ty, v, vm, ia⟩ := sd
  refine ⟨fun ht => ?_, fun ht => ?_⟩ <;> cases ht <;>
    exact ⟨fun hm => by dsimp only at hm; simp [sensorMergeStep, hm],
      fun hm hv => by
        dsimp only at hm hv
        simp [sensorMergeStep, hm, hv]⟩

/-- Witness for C2: a temperature entry with `value_milli = 23500` yields
23.5 °C, and one with only `value = 24` yields 24 °C. -/
theorem parse_sensor_data_milli_preference_witness :
    (parse_sensor_data [{ sensor_type := .temperature, value_milli := 23500 }]
        {}).temperature = some ((23500 : ℚ) / 1000) ∧
    (parse_sensor_data [{ sensor_type := .temperature, value := 24 }]
        {}).temperature = some ((24 : ℚ)) :=
  ⟨((parse_sensor_data_milli_preference []
      {} { sensor_type := .temperature, value_milli := 23500 }).1 rfl).1
        (by decide),
   ((parse_sensor_data_milli_preference []
      {} { sensor_type := .temperature, value := 24 }).1 rfl).2
        rfl (by decide)⟩

/-- C3 counterexample: a login response with HTTP status 401 whose body
contains `mfa_token` raises `NanitAuthError("Invalid credentials")`, not
the MFA-required error — `_async_auth_request` checks `status == 401`
before it parses the body. -/
theorem auth_request_401_mfa_counterexample :
    auth_request 401 { mfa_token := some "MT1" } =
      .error (.authError "Invalid credentials") ∧
    auth_request 401 { mfa_token := some "MT1" } ≠
      .error (.mfaRequired "MT1") := by
  constructor
  · rfl
  · intro h
    simp [auth_request] at h

/-- C3 (amended): for every login response whose body contains
`mfa_token` and whose status is not 401, `_async_auth_request` raises the
MFA-required error with that token regardless of the HTTP status
(including the non-standard 482) — the `mfa_token` check runs before the
generic `raise_for_status` check, but after the explicit 401 check. -/
theorem auth_request_mfa_precedence (status : Nat) (body : LoginBody)
    (t : String) (hs : status ≠ 401) (hm : body.mfa_token = some t) :
    auth_request status body = .error (.mfaRequired t) := by
  simp [auth_request, hs, hm]

/-- Witness for C3 (amended): an HTTP 482 response carrying an MFA token
raises MFA-required. -/
theorem auth_request_mfa_precedence_witness :
    auth_request 482 { mfa_token := some "MT1" } =
      .error (.mfaRequired "MT1") :=
  auth_request_mfa_precedence 482 { mfa_token := some "MT1" } "MT1"
    (by decide) rfl

/-- Every id produced after state `p` exceeds `p`'s counter. -/
theorem nextIds_gt_counter (n : Nat) :
    ∀ (p : PendingRequests), ∀ x ∈ nextIds p n, p.counter < x := by
  induction n with
  | zero => intro p x hx; simp [nextIds] at hx
  | succ n ih =>
      intro p x hx
      simp only [nextIds, List.mem_cons] at hx
      rcases hx with rfl | hx
      · exact Nat.lt_succ_self _
      · exact Nat.lt_of_succ_lt (ih _ x hx)

/-- C5: any sequence of `next_id()` calls within one controller lifetime
returns strictly increasing, pairwise distinct request ids. -/
theorem next_id_strictly_increasing (p : PendingRequests) (n : Nat) :
    List.Pairwise (· < ·) (nextIds p n) ∧ (nextIds p n).Nodup := by
  have hp : ∀ (m : Nat) (q : PendingRequests),
      List.Pairwise (· < ·) (nextIds q m) := by
    intro m
    induction m with
    | zero => intro q; simp [nextIds]
    | succ m ih =>
        intro q
        exact List.Pairwise.cons (fun x hx => nextIds_gt_counter m _ x hx)
          (ih _)
  exact ⟨hp n p, (hp n p).imp fun h => ne_of_lt h⟩

/-- C6: after `cancel_all(error)` the table is empty; every future that
was pending is completed with the error when one was provided and
cancelled otherwise; futures already done are untouched; and a subsequent
`track(id)` succeeds for every id, including previously pending ones. -/
theorem cancel_all_drains (p : PendingRequests) (error : Option NanitError) :
    ((p.cancel_all error).1.pending_count = 0) ∧
    (∀ id f, (id, f) ∈ p.table → f = .pending →
      (id, (match error with
            | some e => FutureState.failed e
            | Option.none => FutureState.cancelled)) ∈
        (p.cancel_all error).2) ∧
    (∀ id f, (id, f) ∈ p.table → f ≠ .pending →
      (id, f) ∈ (p.cancel_all error).2) ∧
    (∀ id, ((p.cancel_all error).1.track id).isSome = true) := by
  refine ⟨rfl, ?_, ?_, ?_⟩
  · intro id f hmem hf
    subst hf
    have := List.mem_map_of_mem
      (fun e : Nat × FutureState => (e.1, completeFuture error e.2)) hmem
    simpa [PendingRequests.cancel_all, completeFuture] using this
  · intro id f hmem hf
    have := List.mem_map_of_mem
      (fun e : Nat × FutureState => (e.1, completeFuture error e.2)) hmem
    simpa [PendingRequests.cancel_all, completeFuture, hf] using this
  · intro id
    simp [PendingRequests.cancel_all, PendingRequests.track]

/-- Witness for C6: cancel-all with a transport error on a table holding
one pending and one already-cancelled future. -/
theorem cancel_all_drains_witness :
    ((PendingRequests.cancel_all
        { table := [(1, .pending), (2, .cancelled)], counter := 5 }
        (some (.transportError "Connection lost"))).1.pending_count = 0) ∧
    ((1, FutureState.failed (.transportError "Connection lost")) ∈
      (PendingRequests.cancel_all
        { table := [(1, .pending), (2, .cancelled)], counter := 5 }
        (some (.transportError "Connection lost"))).2) ∧
    (((PendingRequests.cancel_all
        { table := [(1, .pending), (2, .cancelled)], counter := 5 }
        (some (.transportError "Connection lost"))).1.track 1).isSome = true) :=
  ⟨(cancel_all_drains { table := [(1, .pending), (2, .cancelled)], counter := 5 }
      (some (.transportError "Connection lost"))).1,
   (cancel_all_drains { table := [(1, .pending), (2, .cancelled)], counter := 5 }
      (some (.transportError "Connection lost"))).2.1 1 .pending
      (by decide) rfl,
   (cancel_all_drains { table := [(1, .pending), (2, .cancelled)], counter := 5 }
      (some (.transportError "Connection lost"))).2.2.2 1⟩

/-- C4 counterexample: a state with `ConnectionInfo.state = reconnecting`
and a non-empty pending table is reachable — connect, succeed, track one
request, then the receive loop exits and the reconnect loop emits
`reconnecting` without any cancel-all (the handler only drains on
`disconnected`). -/
theorem pending_survives_reconnecting :
    ∃ c : CtrlState, CtrlReachable c ∧
      c.conn.state ≠ .connected ∧ c.pending.pending_count ≠ 0 := by
  have t1 : CtrlStep initCtrl
      (on_connection_change initCtrl .connecting .cloud Option.none 0) :=
    CtrlStep.connect_attempt initCtrl .cloud 0
  set s1 := on_connection_change initCtrl .connecting .cloud Option.none 0
    with hs1
  have t2 : CtrlStep s1
      (on_connection_change s1 .connected s1.conn.transport Option.none 1) :=
    CtrlStep.connect_success s1 1 (by decide)
  set s2 := on_connection_change s1 .connected s1.conn.transport Option.none 1
    with hs2
  have t3 : CtrlStep s2
      { s2 with pending := { table := [(1, .pending)], counter := 0 } } :=
    CtrlStep.send_track s2 1 { table := [(1, .pending)], counter := 0 }
      (by decide) (by decide)
  set s3 : CtrlState :=
    { s2 with pending := { table := [(1, .pending)], counter := 0 } }
    with hs3
  have t4 : CtrlStep s3
      (on_connection_change s3 .reconnecting s3.conn.transport Option.none 2) :=
    CtrlStep.recv_loop_exit s3 2 (by decide)
  refine ⟨on_connection_change s3 .reconnecting s3.conn.transport Option.none 2,
    ?_, by decide, by decide⟩
  exact Relation.ReflTransGen.tail
    (Relation.ReflTransGen.tail
      (Relation.ReflTransGen.tail
        (Relation.ReflTransGen.tail Relation.ReflTransGen.refl t1) t2) t3) t4

/-- C4 (amended): every transition into `disconnected` leaves the pending
table empty — `_on_connection_change` cancel-alls with
`TransportError("Connection lost")` on that transition.  Transitions into
`reconnecting` or `connecting` do not drain the table. -/
theorem disconnect_transition_drains_pending (c : CtrlState)
    (t : TransportKind) (err : Option String) (now : Nat) :
    (on_connection_change c .disconnected t err now).pending.pending_count
      = 0 := by
  simp [on_connection_change, PendingRequests.cancel_all,
    PendingRequests.pending_count]

/-- C7: `async_get_access_token(min_ttl)` refreshes exactly when
`now + min_ttl ≥ expires_at`; a refresh installs the REST client's token
pair and resets expiry to `now + 3600`, and any later call whose own
deadline stays below `now + 3600` returns the new access token without a
further refresh. -/
theorem get_access_token_refresh_iff (st : TokenState) (now min_ttl : ℚ)
    (rest : TokenPair) :
    ((get_access_token st now min_ttl rest).2.2 = true ↔
      st.expires_at ≤ now + min_ttl) ∧
    (st.expires_at ≤ now + min_ttl →
      get_access_token st now min_ttl rest =
        (rest.access_token,
         { access_token := rest.access_token
           refresh_token := rest.refresh_token
           expires_at := now + 3600 }, true)) ∧
    (¬ st.expires_at ≤ now + min_ttl →
      get_access_token st now min_ttl rest =
        (st.access_token, st, false)) ∧
    (∀ now' min_ttl' rest', st.expires_at ≤ now + min_ttl →
      now' + min_ttl' < now + 3600 →
      get_access_token (get_access_token st now min_ttl rest).2.1
          now' min_ttl' rest' =
        (rest.access_token, (get_access_token st now min_ttl rest).2.1,
         false)) := by
  refine ⟨?_, fun h => by simp [get_access_token, h], fun h => by
    simp [get_access_token, h], ?_⟩
  · constructor
    · intro h
      by_contra hc
      simp [get_access_token, hc] at h
    · intro h
      simp [get_access_token, h]
  · intro now' min_ttl' rest' h hlt
    simp only [get_access_token, if_pos h]
    exact if_neg (by simpa using not_le.mpr hlt)

/-- Witness for C7: the spec's expired-then-refresh scenario — seed
(A, R) expiring at 30 s, call at `now = 0` with `min_ttl = 60`: the
refresh installs (A2, R2) with expiry 3600; a later call at
`now' = 3500` with `min_ttl' = 60` returns A2 without refreshing. -/
theorem get_access_token_refresh_iff_witness :
    get_access_token
        (get_access_token (TokenState.mk "A" "R" 30) 0 60
          (TokenPair.mk "A2" "R2")).2.1
        3500 60 (TokenPair.mk "A3" "R3") =
      ("A2",
       (get_access_token (TokenState.mk "A" "R" 30) 0 60
          (TokenPair.mk "A2" "R2")).2.1,
       false) :=
  (get_access_token_refresh_iff (TokenState.mk "A" "R" 30)
      0 60 (TokenPair.mk "A2" "R2")).2.2.2
    3500 60 (TokenPair.mk "A3" "R3")
    (by norm_num) (by norm_num)

/-- Closed form of the backoff recurrence: iterating
`backoff = min(backoff * 1.618, 60)` from 1.85 gives
`min(1.85 * 1.618^k, 60)`. -/
theorem backoff_closed_form (k : Nat) :
    backoff k = min ((1.85 : ℚ) * 1.618 ^ k) 60 := by
  induction k with
  | zero =>
      simp [backoff]
      norm_num
  | succ k ih =>
      have hs : (1.85 : ℚ) * 1.618 ^ (k + 1) =
          (1.85 * 1.618 ^ k) * 1.618 := by ring
      rw [backoff, ih]
      rcases le_total ((1.85 : ℚ) * 1.618 ^ k) 60 with h | h
      · rw [min_eq_left h, hs]
      · rw [min_eq_right h, hs]
        have h1 : (60 : ℚ) ≤ 60 * 1.618 := by norm_num
        have h2 : (60 : ℚ) ≤ (1.85 * 1.618 ^ k) * 1.618 := by linarith
        rw [min_eq_right h1, min_eq_right h2]

/-- C8: when the receive loop exits without `close()`, the k-th reconnect
wait over consecutive connect failures equals
`min(1.85 * 1.618^k, 60)` seconds, with the `[0,1)` s jitter added to the
first wait only (so every wait stays below the cap plus one second). -/
theorem reconnect_wait_formula (j : ℚ) (k : Nat)
    (h0 : 0 ≤ j) (h1 : j < 1) :
    reconnectWait j k =
      min ((1.85 : ℚ) * 1.618 ^ k) 60 + (if k = 0 then j else 0) ∧
    min ((1.85 : ℚ) * 1.618 ^ k) 60 ≤ reconnectWait j k ∧
    reconnectWait j k < min ((1.85 : ℚ) * 1.618 ^ k) 60 + 1 := by
  have he : reconnectWait j k =
      min ((1.85 : ℚ) * 1.618 ^ k) 60 + (if k = 0 then j else 0) := by
    rw [reconnectWait, backoff_closed_form]
  refine ⟨he, ?_, ?_⟩
  · rw [he]
    split
    · linarith
    · simp
  · rw [he]
    split
    · linarith
    · norm_num

/-- Witness for C8: the fourth wait (k = 3) is
`1.85 · 1.618³` (uncapped, no jitter). -/
theorem reconnect_wait_formula_witness :
    reconnectWait (1 / 2) 3 = min ((1.85 : ℚ) * 1.618 ^ 3) 60 := by
  have h := (reconnect_wait_formula (1 / 2) 3 (by norm_num) (by norm_num)).1
  simpa using h

/-- C9 counterexample: a second consecutive `stop()` is not free of
effects — `async_close` runs again and fires one more `disconnected`
connection-change notification at the subscribers. -/
theorem second_stop_fires_event :
    (async_stop
        (async_stop
          { probe_active := true
            pending := { table := [(1, .pending)], counter := 1 }
            conn := { state := .connected, transport := .cloud }
            transp := { closed := false, ws_open := true, kind := .cloud } }
          0).1
        1).2 ≠ ([] : List CameraEventKind) := by
  decide

/-- C9 (amended): `stop()` cancels the local-probe task, cancel-alls the
pending table and closes the transport; a second consecutive `stop()`
leaves the controller and transport state unchanged, but does fire one
additional `connection_change` notification to subscribers (the
transport's close emits its final `disconnected` again). -/
theorem async_stop_idempotent_on_state (c : CameraCtrl) (now now' : Nat) :
    (async_stop c now).1.stopped = true ∧
    (async_stop c now).1.probe_active = false ∧
    (async_stop c now).1.pending.pending_count = 0 ∧
    (async_stop c now).1.transp =
      { closed := true, ws_open := false, kind := .nothing } ∧
    (async_stop (async_stop c now).1 now').1 = (async_stop c now).1 ∧
    (async_stop (async_stop c now).1 now').2 =
      [CameraEventKind.connection_change] := by
  refine ⟨rfl, rfl, rfl, rfl, rfl, rfl⟩

/-- C10: `NanitClient.camera` caches controllers by camera uid alone —
for an authenticated client, a second call with the same uid returns the
previously constructed controller object and leaves the client unchanged,
even when it passes a different `baby_uid`, `prefer_local` or `local_ip`;
the new arguments are ignored. -/
theorem camera_cached_by_uid (cl : NanitClient) (uid b1 b2 : String)
    (p1 p2 : Bool) (l1 l2 : Option String) (cam : NanitCamera)
    (cl' : NanitClient)
    (hauth : cl.authenticated = true)
    (h1 : cl.camera uid b1 p1 l1 = .ok (cam, cl')) :
    cl'.camera uid b2 p2 l2 = .ok (cam, cl') := by
  unfold NanitClient.camera at h1 ⊢
  rw [hauth] at h1
  simp only [Bool.true_eq_false, if_false] at h1
  cases hl : cl.cameras.lookup uid with
  | some cam0 =>
      rw [hl] at h1
      cases h1
      rw [hauth]
      simp [hl]
  | none =>
      rw [hl] at h1
      simp only [Except.ok.injEq, Prod.mk.injEq] at h1
      obtain ⟨hcam, hcl⟩ := h1
      subst hcam
      subst hcl
      simp [List.lookup]

/-- Witness for C10: after constructing the controller for camera "c1"
with baby "b1", prefer-local and a local ip, a second call with baby
"b2", no prefer-local and no ip returns the original controller and
leaves the cache unchanged. -/
theorem camera_cached_by_uid_witness :
    NanitClient.camera
        { authenticated := true
          cameras := [("c1", NanitCamera.mk "c1" "b1" true (some "ip"))] }
        "c1" "b2" false Option.none =
      .ok (NanitCamera.mk "c1" "b1" true (some "ip"),
        { authenticated := true
          cameras := [("c1", NanitCamera.mk "c1" "b1" true (some "ip"))] }) :=
  camera_cached_by_uid { authenticated := true, cameras := [] }
    "c1" "b1" "b2" true false (some "ip") Option.none
    (NanitCamera.mk "c1" "b1" true (some "ip"))
    { authenticated := true
      cameras := [("c1", NanitCamera.mk "c1" "b1" true (some "ip"))] }
    rfl rfl

end Aionanit
